import Mathlib

/-!
Verification development for the `dipteek/frontend` messaging client.

The repository's connection-resilience layer consists of two services:

* `ApiService` (`src/services/api.js`): an HTTP wrapper with retry/backoff
  and error normalization.
* `SocketService` (`src/services/socket.js`, several iterations of the file
  are present in the source tree): a socket wrapper with a listener registry,
  a pending event queue, exponential reconnect backoff, and heartbeat
  monitoring.

Each JavaScript function relevant to the verified properties is shallowly
embedded below as an executable Lean function over explicit state; theorems
about those functions follow at the end of the file.
-/

namespace Frontend

/- String literals used by the services, named so they can be shared between
definitions and theorems. -/

def transportCloseReason : String := "transport close"

def transportErrorReason : String := "transport error"

def pingTimeoutReason : String := "ping timeout"

def serverShuttingDownReason : String := "server shutting down"

def ioServerDisconnectReason : String := "io server disconnect"

def ioClientDisconnectReason : String := "io client disconnect"

def econnabortedCode : String := "ECONNABORTED"

def errNetworkCode : String := "ERR_NETWORK"

def anErrorOccurredMsg : String := "An error occurred"

def networkUnavailableMsg : String := "Network error - backend may be unavailable"

def noResponseMsg : String := "No response from server - backend may be sleeping"

def unknownErrorMsg : String := "Unknown error occurred"

def serverErrorPrefixMsg : String := "Server error: "

def timeoutPrefixMsg : String := "timeout of "

def timeoutSuffixMsg : String := "ms exceeded"

def unknownTimeoutMsg : String := "unknown"

/-- JavaScript `a || b` on an optional string: the default is used when the
string is absent or empty (empty strings are falsy in JavaScript). -/
def jsOrString (o : Option String) (d : String) : String :=
  match o with
  | none => d
  | some s => if s = "" then d else s

namespace ApiService

/-! ## Request Retry Manager (`src/services/api.js`) -/

/-- Constant `MAX_RETRIES` (api.js line 7). -/
def MAX_RETRIES : Nat := 3

/-- The part of an axios response object inspected by the service:
`status`, `statusText`, and the optional `data.error` / `data.message`
fields. -/
structure ResponseInfo where
  status : Nat
  statusText : String
  dataError : Option String
  dataMessage : Option String
deriving DecidableEq, Repr

/-- The shape of an axios failure as inspected by `api.js`: an optional
`code` string, an optional `response`, whether a `request` object is present
(the request was sent but no response arrived), the error `message`, and
the request config's `timeout`. -/
structure AxiosError where
  code : Option String
  response : Option ResponseInfo
  requestMade : Bool
  message : Option String
  configTimeout : Option Nat
deriving DecidableEq, Repr

/-- The fixed list of retryable HTTP statuses
(`ApiService.isRetryableError`, api.js line 173). -/
def retryableStatuses : List Nat := [408, 429, 500, 502, 503, 504]

/-- Embedding of `ApiService.isRetryableError` (api.js lines 166-176): a failure with no
response at all is retryable; otherwise the response status must be in the
fixed retryable list. -/
def isRetryableError (e : AxiosError) : Bool :=
  match e.response with
  | none => true
  | some r => retryableStatuses.contains r.status

/-- Embedding of `ApiService.shouldRetry` (api.js lines 178-181): the per-request retry
counter (`config.retryCount || 0`) must be below `MAX_RETRIES`. -/
def shouldRetry (retryCount : Nat) : Bool :=
  retryCount < MAX_RETRIES

/-- JavaScript template piece in the timeout message:
`error.config?.timeout || 'unknown'` (a missing or zero timeout is falsy). -/
def timeoutValueText (t : Option Nat) : String :=
  match t with
  | none => unknownTimeoutMsg
  | some n => if n = 0 then unknownTimeoutMsg else toString n

/-- The normalized error produced by `ApiService.transformError`. -/
structure TransformedError where
  message : String
  status : Option Nat
  statusText : Option String
  isNetworkError : Bool
  isTimeoutError : Bool
  isServerError : Bool
  originalError : AxiosError
deriving DecidableEq, Repr

/-- Embedding of `ApiService.transformError` (api.js lines 206-242), with the branches in
source order: `ECONNABORTED`, then `ERR_NETWORK`, then a response being
present, then a request having been made with no response, then the
catch-all. -/
def transformError (e : AxiosError) : TransformedError :=
  let base : TransformedError :=
    { message := anErrorOccurredMsg
      status := none
      statusText := none
      isNetworkError := false
      isTimeoutError := false
      isServerError := false
      originalError := e }
  if e.code = some econnabortedCode then
    { base with
        message := timeoutPrefixMsg ++ timeoutValueText e.configTimeout ++ timeoutSuffixMsg
        isTimeoutError := true
        isNetworkError := true }
  else if e.code = some errNetworkCode then
    { base with
        message := networkUnavailableMsg
        isNetworkError := true }
  else
    match e.response with
    | some r =>
        { base with
            status := some r.status
            statusText := some r.statusText
            message := jsOrString r.dataError
              (jsOrString r.dataMessage (serverErrorPrefixMsg ++ toString r.status))
            isServerError := true }
    | none =>
        if e.requestMade then
          { base with
              message := noResponseMsg
              isNetworkError := true }
        else
          { base with message := jsOrString e.message unknownErrorMsg }

/-- One logical request through the response interceptor and
`ApiService.retryRequest` (api.js lines 68-88 and 183-204). `oracle n` is
the outcome of the attempt carrying `retryCount = n`. The `fuel` argument
makes the recursion structural; it starts at `MAX_RETRIES` and satisfies
`fuel + retryCount = MAX_RETRIES` throughout, so the fuel-exhausted branch
coincides with `shouldRetry retryCount = false`. Returns the final outcome
(success value or normalized error) and the total number of attempts
performed. -/
def dispatchAux (oracle : Nat → Except AxiosError Nat) :
    Nat → Nat → Except TransformedError Nat × Nat
  | fuel, retryCount =>
    match oracle retryCount, fuel with
    | Except.ok v, _ => (Except.ok v, 1)
    | Except.error e, 0 => (Except.error (transformError e), 1)
    | Except.error e, f + 1 =>
        if isRetryableError e && shouldRetry retryCount then
          let r := dispatchAux oracle f (retryCount + 1)
          (r.1, r.2 + 1)
        else
          (Except.error (transformError e), 1)

/-- A logical request starts with fuel `MAX_RETRIES` and `retryCount = 0`. -/
def dispatch (oracle : Nat → Except AxiosError Nat) :
    Except TransformedError Nat × Nat :=
  dispatchAux oracle MAX_RETRIES 0

/-- The pagination shape returned by `ApiService.getMessages`. -/
structure Pagination where
  page : Nat
  limit : Nat
  total : Nat
  has_more : Bool
deriving DecidableEq, Repr

/-- The result shape of `ApiService.getMessages`; message payloads are
opaque and represented by identifiers. -/
structure MessagesResult where
  messages : List Nat
  pagination : Pagination
deriving DecidableEq, Repr

/-- Embedding of `ApiService.getMessages` (api.js lines 327-343): on a failure whose
normalized error has the network or timeout flag, return the empty result
shape instead of propagating; otherwise rethrow. -/
def getMessages (page limit : Nat)
    (outcome : Except TransformedError MessagesResult) :
    Except TransformedError MessagesResult :=
  match outcome with
  | Except.ok r => Except.ok r
  | Except.error e =>
      if e.isNetworkError || e.isTimeoutError then
        Except.ok
          { messages := []
            pagination := { page := page, limit := limit, total := 0, has_more := false } }
      else
        Except.error e

/-- Embedding of `ApiService.sendMessage` (api.js lines 345-354): every failure is
rethrown unchanged. -/
def sendMessage (outcome : Except TransformedError Nat) :
    Except TransformedError Nat :=
  match outcome with
  | Except.ok r => Except.ok r
  | Except.error e => Except.error e

end ApiService

namespace SocketService

/-! ## Transport Health Manager (`src/services/socket.js`, the enhanced
iteration of the file: health monitoring, wake-up probing, queue max age).
Constants from its header. -/

/-- Constant `RECONNECT_DELAY` (socket.js header, value 1000). -/
def RECONNECT_DELAY : ℚ := 1000

/-- Constant `MAX_RECONNECT_ATTEMPTS` (socket.js header, value 10). -/
def MAX_RECONNECT_ATTEMPTS : Nat := 10

/-- Constant `PING_INTERVAL` (socket.js header, value 25000). -/
def PING_INTERVAL : Nat := 25000

/-- Constant `HEARTBEAT_TIMEOUT` (socket.js header, value 60000). -/
def HEARTBEAT_TIMEOUT : Nat := 60000

/-- The `connectionState` field of the service. -/
inductive ConnState where
  | disconnected
  | connecting
  | connected
  | error
deriving DecidableEq, Repr

/-- The slice of `SocketService` state relevant to the reconnection state
machine: the attempt counter and its bound, the base reconnect delay, the
tracked backoff timer (`this.reconnectTimeout`, holding the scheduled delay
when pending), the number of pending anonymous `setTimeout(connect, d)`
timers created by `handleDisconnect`, the `connected` flag and the
transport's own connected flag, the connection state, the last successful
pong timestamp, the wake-up counter, and whether a terminal `failed` status
has been emitted to `connection_status` subscribers. -/
structure THMState where
  reconnectAttempts : Nat
  maxReconnectAttempts : Nat
  reconnectDelay : ℚ
  reconnectTimer : Option ℚ
  discTimers : Nat
  connected : Bool
  socketConnected : Bool
  connectionState : ConnState
  lastSuccessfulPing : Option Nat
  wakeUpAttempts : Nat
  notifiedFailed : Bool
deriving DecidableEq, Repr

/-- The state set up by the constructor (socket.js constructor). -/
def initialState : THMState :=
  { reconnectAttempts := 0
    maxReconnectAttempts := MAX_RECONNECT_ATTEMPTS
    reconnectDelay := RECONNECT_DELAY
    reconnectTimer := none
    discTimers := 0
    connected := false
    socketConnected := false
    connectionState := ConnState.disconnected
    lastSuccessfulPing := none
    wakeUpAttempts := 0
    notifiedFailed := false }

/-- Embedding of `SocketService.handleConnectionError` (socket.js lines 499-538), the
part after logging: below the attempt bound the counter is incremented and
a reconnect is scheduled after
`min(reconnectDelay * 1.5 ^ (reconnectAttempts - 1), 30000)` milliseconds
(with the already-incremented counter); otherwise a terminal `failed`
status is emitted to `connection_status` subscribers and nothing is
scheduled. -/
def handleConnectionError (s : THMState) : THMState :=
  let s1 := { s with
                connected := false
                connectionState := ConnState.error
                reconnectTimer := s.reconnectTimer }
  if s1.reconnectAttempts < s1.maxReconnectAttempts then
    let attempts1 := s1.reconnectAttempts + 1
    let delay : ℚ := min (s1.reconnectDelay * ((3 : ℚ) / 2) ^ (attempts1 - 1)) 30000
    { s1 with
        reconnectAttempts := attempts1
        reconnectTimer := some delay }
  else
    { s1 with notifiedFailed := true }

/-- The `reconnectableReasons` list inside `SocketService.shouldReconnect`
(socket.js lines 484-492). -/
def reconnectableReasons : List String :=
  [transportCloseReason, transportErrorReason, pingTimeoutReason,
   serverShuttingDownReason, ioServerDisconnectReason, ioClientDisconnectReason]

/-- Embedding of `SocketService.shouldReconnect` (socket.js lines 484-497): the reason is
in the allow-list, or equals `transport error` (redundantly re-tested), or
is falsy (`!reason`: a missing reason or the empty string). -/
def shouldReconnect (reason : Option String) : Bool :=
  match reason with
  | none => true
  | some r =>
      reconnectableReasons.contains r || (r = transportErrorReason) || (r = "")

/-- The `immediateReconnectReasons` list inside
`SocketService.handleDisconnect` (socket.js line 545). -/
def immediateReconnectReasons : List String :=
  [transportCloseReason, transportErrorReason]

/-- Embedding of `SocketService.handleDisconnect` (socket.js lines 540-550): when the
reason is reconnectable and the attempt budget remains, schedule a
`connect()` after 1000 ms for the immediate (transport-level) reasons and
after `this.reconnectDelay` otherwise, through an anonymous untracked
`setTimeout`. Returns the new state and the scheduled delay, if any. -/
def handleDisconnect (s : THMState) (reason : Option String) :
    THMState × Option ℚ :=
  if shouldReconnect reason && decide (s.reconnectAttempts < s.maxReconnectAttempts) then
    let immediate : Bool :=
      match reason with
      | some r => immediateReconnectReasons.contains r
      | none => false
    let d : ℚ := if immediate then 1000 else s.reconnectDelay
    ({ s with discTimers := s.discTimers + 1 }, some d)
  else
    (s, none)

/-- The transport `disconnect` event handler (socket.js lines 437-457):
clears the connected flags and connection state, then runs
`handleDisconnect`. -/
def onDisconnectEvent (s : THMState) (reason : Option String) : THMState :=
  (handleDisconnect
    { s with
        connected := false
        socketConnected := false
        connectionState := ConnState.disconnected }
    reason).1

/-- Embedding of `SocketService.resetReconnection` (socket.js lines 741-748): zero both
counters and cancel the tracked backoff timer. -/
def resetReconnection (s : THMState) : THMState :=
  { s with
      reconnectAttempts := 0
      wakeUpAttempts := 0
      reconnectTimer := none }

/-- Embedding of `SocketService.disconnect` (socket.js lines 693-721): cancel the
tracked timers, drop the transport, and reset the counters and state. -/
def disconnectCall (s : THMState) : THMState :=
  { s with
      reconnectTimer := none
      connected := false
      socketConnected := false
      connectionState := ConnState.disconnected
      reconnectAttempts := 0
      wakeUpAttempts := 0 }

/-- Embedding of `SocketService.connect` (socket.js lines 274-350) as far as the
reconnection state machine sees it: an early return while already
`connecting`, otherwise a teardown via `disconnect()` followed by a fresh
transport in state `connecting` is begun. The interesting consequence is
that `disconnect()` zeroes `reconnectAttempts`. -/
def connectCall (s : THMState) : THMState :=
  if s.connectionState = ConnState.connecting then
    s
  else
    { disconnectCall s with connectionState := ConnState.connecting }

/-- The first part of `SocketService.reconnect` (socket.js lines 751-759):
`resetReconnection` followed by `disconnect()` (a `connect()` is then
scheduled after a fixed pause). -/
def reconnectCall (s : THMState) : THMState :=
  disconnectCall (resetReconnection s)

/-- Spontaneous events the Transport Health Manager reacts to without any
manual call: a transport `connect_error`, a transport `disconnect` with a
reason, the tracked backoff timer firing (which calls `connect()`), and an
anonymous `handleDisconnect` timer firing (which also calls `connect()`).
A spontaneous connect success is not included: the transport is created
with `reconnection: false` and `autoConnect: false`, so it only connects
in response to a `connect()` call. -/
inductive AutoStep where
  | connectError
  | disconnectEvent (reason : Option String)
  | reconnectTimerFire
  | discTimerFire
deriving DecidableEq, Repr

/-- One automatic step; the second component counts how many `connect()`
invocations (reconnect attempts) the step performed. Timer-fire steps are
no-ops when the corresponding timer is not pending. -/
def autoStep (s : THMState) : AutoStep → THMState × Nat
  | AutoStep.connectError => (handleConnectionError s, 0)
  | AutoStep.disconnectEvent r => (onDisconnectEvent s r, 0)
  | AutoStep.reconnectTimerFire =>
      match s.reconnectTimer with
      | none => (s, 0)
      | some _ => (connectCall { s with reconnectTimer := none }, 1)
  | AutoStep.discTimerFire =>
      match s.discTimers with
      | 0 => (s, 0)
      | n + 1 => (connectCall { s with discTimers := n }, 1)

/-- Run a sequence of automatic steps, accumulating the number of
`connect()` invocations. -/
def runAuto (s : THMState) : List AutoStep → THMState × Nat
  | [] => (s, 0)
  | st :: rest =>
      let p := autoStep s st
      let q := runAuto p.1 rest
      (q.1, p.2 + q.2)

/-- The state after `k` consecutive `connect_error` events starting from
the constructor state. -/
def afterErrors (k : Nat) : THMState :=
  Nat.rec initialState (fun _ s => handleConnectionError s) k

/-- The heartbeat health-check interval body
(`SocketService.startHealthMonitoring`, socket.js lines 570-578): while
`this.connected` and `this.lastSuccessfulPing` are truthy and more than
`HEARTBEAT_TIMEOUT` has elapsed since the last pong, the transport is
force-disconnected. Returns whether the forced disconnect is issued. -/
def heartbeatCheck (s : THMState) (now : Nat) : Bool :=
  s.connected &&
    (match s.lastSuccessfulPing with
     | some t => decide (t ≠ 0) && decide (HEARTBEAT_TIMEOUT < now - t)
     | none => false)

/-- The ping interval body (`SocketService.startHealthMonitoring`,
socket.js lines 556-567): while the transport itself is connected, a ping
is emitted and the same staleness check force-disconnects the transport.
Returns whether the forced disconnect is issued. -/
def pingIntervalCheck (s : THMState) (now : Nat) : Bool :=
  s.socketConnected &&
    (match s.lastSuccessfulPing with
     | some t => decide (t ≠ 0) && decide (HEARTBEAT_TIMEOUT < now - t)
     | none => false)

/-! ### Listener Registry (`on` / `setupEventHandlers` re-attachment) -/

/-- The disposable transport, reduced to the listeners attached to it via
`socket.on(event, callback)`; callbacks are identified by numbers. -/
structure Transport where
  attached : List (String × Nat)
deriving DecidableEq, Repr

/-- Listeners a transport invokes for a delivered event `ev`: every
callback attached under that event name, in attachment order. -/
def Transport.deliver (sk : Transport) (ev : String) : List Nat :=
  (sk.attached.filter (fun p => p.1 = ev)).map (fun p => p.2)

/-- The `eventListeners` map (`Map<string, callback[]>`) as an association
list in key-insertion order. -/
abbrev Registry : Type := List (String × List Nat)

/-- Adding a callback to the registry, as `SocketService.on` does (socket.js
lines 612-616): create the key's array if absent, then push. -/
def registryAdd (l : Registry) (ev : String) (cb : Nat) : Registry :=
  if l.any (fun p => p.1 = ev) then
    l.map (fun p => if p.1 = ev then (p.1, p.2 ++ [cb]) else p)
  else
    l ++ [(ev, [cb])]

/-- All (event, callback) pairs held by the registry. -/
def registryPairs (l : Registry) : List (String × Nat) :=
  l.flatMap (fun p => p.2.map (fun cb => (p.1, cb)))

/-- The listener-facing slice of `SocketService` state: the registry and
the current transport, if any. -/
structure SvcState where
  eventListeners : Registry
  socket : Option Transport

/-- Embedding of `SocketService.on` (socket.js lines 612-621): mutate the registry
first, then mirror onto the live transport if one exists. -/
def SvcState.on (s : SvcState) (ev : String) (cb : Nat) : SvcState :=
  { eventListeners := registryAdd s.eventListeners ev cb
    socket := s.socket.map (fun sk => { attached := sk.attached ++ [(ev, cb)] }) }

/-- The re-attachment loop at the end of `SocketService.setupEventHandlers`
(socket.js lines 476-481): every listener of every registry entry is
attached to the socket. -/
def SvcState.setupEventHandlers (s : SvcState) : SvcState :=
  match s.socket with
  | none => s
  | some sk =>
      { s with socket := some { attached := sk.attached ++ registryPairs s.eventListeners } }

/-- Operations of a disconnect/reconnect trace: registering a listener,
`connect()` (which replaces the transport with a fresh one and runs
`setupEventHandlers` on it), and `disconnect()` (which drops the
transport). -/
inductive SvcOp where
  | register (ev : String) (cb : Nat)
  | connect
  | disconnect
deriving DecidableEq, Repr

/-- Apply one trace operation. -/
def SvcState.applyOp (s : SvcState) : SvcOp → SvcState
  | SvcOp.register ev cb => s.on ev cb
  | SvcOp.connect =>
      SvcState.setupEventHandlers { s with socket := some { attached := [] } }
  | SvcOp.disconnect => { s with socket := none }

/-- Run a trace from the constructor state (empty registry, no socket). -/
def runSvc (ops : List SvcOp) : SvcState :=
  ops.foldl SvcState.applyOp { eventListeners := [], socket := none }

/-! ### Pending Event Queue -/

/-- One entry of `this.eventQueue`: event name, opaque payload, whether an
acknowledgment callback was supplied, and the enqueue timestamp. -/
structure QueuedEvent where
  event : String
  payloadId : Nat
  hasCallback : Bool
  timestamp : Nat
deriving DecidableEq, Repr

/-- The queue capacity used by `SocketService.queueEvent` (socket.js
line 658). -/
def QUEUE_CAPACITY : Nat := 100

/-- The max age used by `SocketService.emitQueuedEvents` (socket.js
line 676). -/
def MAX_QUEUE_AGE : Nat := 300000

/-- Embedding of `SocketService.queueEvent` (socket.js lines 656-668): shift the oldest
entry off when the queue is at (or above) capacity, then push the new
entry. -/
def queueEvent (q : List QueuedEvent) (e : QueuedEvent) : List QueuedEvent :=
  (if QUEUE_CAPACITY ≤ q.length then q.tail else q) ++ [e]

/-- Embedding of `SocketService.emitQueuedEvents` (socket.js lines 670-691), run on the
transition to `connected`: entries not older than `MAX_QUEUE_AGE` are kept
(in order), the queue is cleared, and the kept entries are emitted in
order. Returns (emitted entries, new queue). -/
def emitQueuedEvents (q : List QueuedEvent) (now : Nat) :
    List QueuedEvent × List QueuedEvent :=
  if q.length = 0 then
    ([], q)
  else
    (q.filter (fun e => now - e.timestamp ≤ MAX_QUEUE_AGE), [])

/-- Queue operations: enqueue via `queueEvent`, drain via
`emitQueuedEvents`, clear via `disconnect()`/`cleanup()` (both assign
`this.eventQueue = []`). -/
inductive QueueOp where
  | enqueue (e : QueuedEvent)
  | drain (now : Nat)
  | clear

/-- Apply one queue operation to the queue. -/
def applyQueueOp (q : List QueuedEvent) : QueueOp → List QueuedEvent
  | QueueOp.enqueue e => queueEvent q e
  | QueueOp.drain now => (emitQueuedEvents q now).2
  | QueueOp.clear => []

/-- Run a sequence of queue operations from the constructor's empty
queue. -/
def runQueue (ops : List QueueOp) : List QueuedEvent :=
  ops.foldl applyQueueOp []

/-- The outcome of `SocketService.emit`: its boolean return value, the
queue afterwards, and whether the payload went out on the transport. -/
structure EmitResult where
  returned : Bool
  queue : List QueuedEvent
  sent : Bool
deriving DecidableEq, Repr

/-- Embedding of `SocketService.emit` (socket.js lines 640-654): when the transport is
connected, `socket.emit` is attempted and `true` is returned on success;
a throw is caught and `false` is returned with the event neither sent nor
queued; when not connected, the event is queued and `false` is returned.
`transportThrows` stands for whether the underlying `socket.emit` call
throws. -/
def emit (socketConnected : Bool) (q : List QueuedEvent) (e : QueuedEvent)
    (transportThrows : Bool) : EmitResult :=
  if socketConnected then
    if transportThrows then
      { returned := false, queue := q, sent := false }
    else
      { returned := true, queue := q, sent := true }
  else
    { returned := false, queue := queueEvent q e, sent := false }

end SocketService

namespace SocketServiceB

/-! ## Transport Health Manager, earlier iteration (the last chunk of the
socket.js source file: growth factor 2, base delay 2000, 8 attempts). -/

/-- Constant `RECONNECT_DELAY` of this iteration (value 2000). -/
def RECONNECT_DELAY : ℚ := 2000

/-- Constant `MAX_RECONNECT_ATTEMPTS` of this iteration (value 8). -/
def MAX_RECONNECT_ATTEMPTS : Nat := 8

/-- Embedding of `SocketService.handleConnectionError` of this iteration (lines
1120-1152 of the combined source file): identical control flow, with
growth factor 2 and the same 30000 cap. -/
def handleConnectionError (s : SocketService.THMState) : SocketService.THMState :=
  let s1 := { s with
                connected := false
                connectionState := SocketService.ConnState.error }
  if s1.reconnectAttempts < s1.maxReconnectAttempts then
    let attempts1 := s1.reconnectAttempts + 1
    let delay : ℚ := min (s1.reconnectDelay * (2 : ℚ) ^ (attempts1 - 1)) 30000
    { s1 with
        reconnectAttempts := attempts1
        reconnectTimer := some delay }
  else
    { s1 with notifiedFailed := true }

/-- The constructor state of this iteration. -/
def initialState : SocketService.THMState :=
  { SocketService.initialState with
      maxReconnectAttempts := MAX_RECONNECT_ATTEMPTS
      reconnectDelay := RECONNECT_DELAY }

/-- The state after `k` consecutive `connect_error` events starting from
this iteration's constructor state. -/
def afterErrors (k : Nat) : SocketService.THMState :=
  Nat.rec initialState (fun _ s => handleConnectionError s) k

/-- The inline reconnectable-reason list of this iteration's
`handleDisconnect` (lines 1154-1160 of the combined source file). -/
def shouldReconnectReasons : List String :=
  [transportCloseReason, transportErrorReason, pingTimeoutReason,
   serverShuttingDownReason]

/-- Embedding of `SocketService.handleDisconnect` of this iteration (lines 1154-1166 of
the combined source file): a reconnect is scheduled after the flat
`this.reconnectDelay` when the reason is in the inline list and budget
remains. Returns the scheduled delay, if any. -/
def handleDisconnect (s : SocketService.THMState) (reason : Option String) :
    Option ℚ :=
  let should : Bool :=
    match reason with
    | some r => shouldReconnectReasons.contains r
    | none => false
  if should && decide (s.reconnectAttempts < s.maxReconnectAttempts) then
    some s.reconnectDelay
  else
    none

end SocketServiceB

/-! ## Sample strings for concrete instances -/

def notFoundText : String := "Not Found"

def notImplementedText : String := "Not Implemented"

def serviceUnavailableText : String := "Service Unavailable"

def newMessageEventText : String := "message:new"

def emptyReasonText : String := ""

/-! ## Theorems -/

namespace ApiService

/-- The two special axios error codes are distinct strings. -/
theorem codes_distinct : econnabortedCode ≠ errNetworkCode := by decide

/-- The retryable-status predicate as the claim words it: request timeout,
rate-limited, or any 5xx. Modelled from the claim text, for comparison with
the source's `retryableStatuses` list. -/
def claimedRetryableStatus (s : Nat) : Prop :=
  s = 408 ∨ s = 429 ∨ (500 ≤ s ∧ s ≤ 599)

/-- C5 counterexample: status 501 is a 5xx and hence retryable according to
the claim's fixed set, but `isRetryableError` classifies a 501 response as
not retryable (the source list is [408, 429, 500, 502, 503, 504], which
omits 501 and 505-599). -/
theorem retry_set_counterexample :
    claimedRetryableStatus 501
    ∧ isRetryableError
        { code := none
          response := some
            { status := 501, statusText := notImplementedText
              dataError := none, dataMessage := none }
          requestMade := true
          message := none
          configTimeout := none } = false := by
  constructor
  · right; right; exact ⟨by decide, by decide⟩
  · rfl

/-- C5 (amended): a request whose every attempt fails with HTTP 503
performs exactly `MAX_RETRIES` retries (`1 + MAX_RETRIES` attempts in
total) and then propagates the normalized error; a request failing with
HTTP 404 is never retried and the normalized error propagates on the first
failure; and a failure is retryable exactly when there is no response at
all or the status is in the fixed list [408, 429, 500, 502, 503, 504]
(not: any 5xx). -/
theorem retry_budget_and_classification
    (oracleA oracleB : Nat → Except AxiosError Nat)
    (eA eB e : AxiosError) (rA rB : ResponseInfo)
    (hoA : ∀ n, oracleA n = Except.error eA)
    (hrA : eA.response = some rA) (hsA : rA.status = 503)
    (hoB : ∀ n, oracleB n = Except.error eB)
    (hrB : eB.response = some rB) (hsB : rB.status = 404) :
    dispatch oracleA = (Except.error (transformError eA), 1 + MAX_RETRIES)
    ∧ dispatch oracleB = (Except.error (transformError eB), 1)
    ∧ (isRetryableError e = true ↔
        (e.response = none ∨ ∃ r, e.response = some r ∧ r.status ∈ retryableStatuses)) := by
  have hretA : isRetryableError eA = true := by
    simp [isRetryableError, hrA, hsA, retryableStatuses]
  have hretB : isRetryableError eB = false := by
    simp [isRetryableError, hrB, hsB, retryableStatuses]
  refine ⟨?_, ?_, ?_⟩
  · simp [dispatch, MAX_RETRIES, dispatchAux, hoA, hretA, shouldRetry]
  · simp [dispatch, MAX_RETRIES, dispatchAux, hoB, hretB]
  · unfold isRetryableError
    cases hres : e.response with
    | none => simp
    | some r => simp [hres]

/-- C5 witness: the amended retry theorem applied to the constant-503 and
constant-404 oracles. -/
theorem retry_budget_check :
    dispatch (fun _ => Except.error
      { code := none
        response := some
          { status := 503, statusText := serviceUnavailableText
            dataError := none, dataMessage := none }
        requestMade := true, message := none, configTimeout := none })
      = (Except.error (transformError
          { code := none
            response := some
              { status := 503, statusText := serviceUnavailableText
                dataError := none, dataMessage := none }
            requestMade := true, message := none, configTimeout := none }), 1 + MAX_RETRIES)
    ∧ dispatch (fun _ => Except.error
        { code := none
          response := some
            { status := 404, statusText := notFoundText
              dataError := none, dataMessage := none }
          requestMade := true, message := none, configTimeout := none })
      = (Except.error (transformError
          { code := none
            response := some
              { status := 404, statusText := notFoundText
                dataError := none, dataMessage := none }
            requestMade := true, message := none, configTimeout := none }), 1)
    ∧ (isRetryableError
        { code := none, response := none, requestMade := true
          message := none, configTimeout := none } = true ↔
        (({ code := none, response := none, requestMade := true
            message := none, configTimeout := none } : AxiosError).response = none
          ∨ ∃ r, ({ code := none, response := none, requestMade := true
                    message := none, configTimeout := none } : AxiosError).response = some r
                  ∧ r.status ∈ retryableStatuses)) :=
  retry_budget_and_classification _ _ _ _ _ _ _
    (fun _ => rfl) rfl rfl (fun _ => rfl) rfl rfl

/-- C6: `getMessages` absorbs any failure whose normalized error carries
the network or timeout flag, returning the empty result shape for the
requested page and limit; in particular this happens for a raw
`ECONNABORTED` failure run through `transformError`; `sendMessage`
propagates every failure unchanged. -/
theorem read_write_error_policy (page limit : Nat) (e e2 : TransformedError)
    (raw : AxiosError)
    (hflag : e.isNetworkError = true ∨ e.isTimeoutError = true)
    (hraw : raw.code = some econnabortedCode) :
    getMessages page limit (Except.error e)
      = Except.ok
          { messages := []
            pagination := { page := page, limit := limit, total := 0, has_more := false } }
    ∧ getMessages page limit (Except.error (transformError raw))
      = Except.ok
          { messages := []
            pagination := { page := page, limit := limit, total := 0, has_more := false } }
    ∧ sendMessage (Except.error e2) = Except.error e2 := by
  refine ⟨?_, ?_, rfl⟩
  · rcases hflag with h | h <;> simp [getMessages, h]
  · simp [getMessages, transformError, hraw]

/-- C6 witness: the read/write error policy at a concrete network error
and a concrete `ECONNABORTED` failure. -/
theorem read_write_error_policy_check :
    getMessages 2 50 (Except.error
      { message := networkUnavailableMsg, status := none, statusText := none
        isNetworkError := true, isTimeoutError := false, isServerError := false
        originalError :=
          { code := some errNetworkCode, response := none, requestMade := true
            message := none, configTimeout := none } })
      = Except.ok
          { messages := []
            pagination := { page := 2, limit := 50, total := 0, has_more := false } }
    ∧ getMessages 2 50 (Except.error (transformError
        { code := some econnabortedCode, response := none, requestMade := true
          message := none, configTimeout := some 30000 }))
      = Except.ok
          { messages := []
            pagination := { page := 2, limit := 50, total := 0, has_more := false } }
    ∧ sendMessage (Except.error
        { message := anErrorOccurredMsg, status := some 500, statusText := none
          isNetworkError := false, isTimeoutError := false, isServerError := true
          originalError :=
            { code := none, response := none, requestMade := true
              message := none, configTimeout := none } })
      = Except.error
          { message := anErrorOccurredMsg, status := some 500, statusText := none
            isNetworkError := false, isTimeoutError := false, isServerError := true
            originalError :=
              { code := none, response := none, requestMade := true
                message := none, configTimeout := none } } :=
  read_write_error_policy 2 50 _ _ _ (Or.inl rfl) rfl

/-- C7 counterexample: a 404 response is a client error, not a 5xx, yet
`transformError` sets the is-server-error flag on it (the source sets the
flag for every failure that carries a response, regardless of status). -/
theorem transform_error_counterexample :
    (transformError
      { code := none
        response := some
          { status := 404, statusText := notFoundText
            dataError := none, dataMessage := none }
        requestMade := true
        message := none
        configTimeout := none }).isServerError = true
    ∧ ¬ (500 ≤ 404 ∧ 404 ≤ 599) := by
  exact ⟨rfl, by decide⟩

/-- C7 (amended): `transformError` maps every failure to one structured
value carrying a message, optional status and status-text, the three
flags, and the original error as cause; the is-timeout-error flag holds
exactly for `ECONNABORTED`; the is-server-error flag holds exactly when
(outside the two special codes) a response is present — any error status,
not only 5xx; the is-network-error flag holds exactly for `ECONNABORTED`,
`ERR_NETWORK`, or a request that got no response; and status/status-text
are copied from the response exactly when the response branch is taken. -/
theorem transform_error_normalization (e : AxiosError) :
    (transformError e).originalError = e
    ∧ ((transformError e).isTimeoutError = true ↔ e.code = some econnabortedCode)
    ∧ ((transformError e).isServerError = true ↔
        (e.code ≠ some econnabortedCode ∧ e.code ≠ some errNetworkCode
          ∧ e.response.isSome = true))
    ∧ ((transformError e).isNetworkError = true ↔
        (e.code = some econnabortedCode ∨ e.code = some errNetworkCode
          ∨ (e.response = none ∧ e.requestMade = true)))
    ∧ (transformError e).status
        = (if e.code = some econnabortedCode ∨ e.code = some errNetworkCode then none
           else e.response.map (fun r => r.status))
    ∧ (transformError e).statusText
        = (if e.code = some econnabortedCode ∨ e.code = some errNetworkCode then none
           else e.response.map (fun r => r.statusText)) := by
  by_cases h1 : e.code = some econnabortedCode
  · have h2 : e.code ≠ some errNetworkCode := by
      rw [h1]
      intro h
      exact codes_distinct (Option.some.inj h)
    simp [transformError, h1]
  · by_cases h2 : e.code = some errNetworkCode
    · have h3 : errNetworkCode ≠ econnabortedCode := Ne.symm codes_distinct
      simp [transformError, h1, h2, h3]
    · cases hres : e.response with
      | some r => simp [transformError, h1, h2, hres]
      | none =>
          cases hreq : e.requestMade <;>
            simp [transformError, h1, h2, hres, hreq]

end ApiService

namespace SocketService

/-- C10: the result of `emit` in each of the three situations — connected
with a successful transport emit (returns true, nothing queued), connected
with a throwing transport emit (returns false, the event is neither sent
nor queued), and not connected (the event is queued and false is
returned). -/
theorem emit_send_or_queue_policy (q : List QueuedEvent) (e : QueuedEvent)
    (th : Bool) :
    emit true q e false = { returned := true, queue := q, sent := true }
    ∧ emit true q e true = { returned := false, queue := q, sent := false }
    ∧ emit false q e th
        = { returned := false, queue := queueEvent q e, sent := false } := by
  exact ⟨rfl, rfl, rfl⟩

/-- Unfolding step for `afterErrors`. -/
theorem afterErrors_succ (n : Nat) :
    afterErrors (n + 1) = handleConnectionError (afterErrors n) := rfl

/-- After `k ≤ MAX_RECONNECT_ATTEMPTS` consecutive connection errors from
the constructor state, the attempt counter equals `k` and the
configuration fields are untouched. -/
theorem afterErrors_state (k : Nat) (hk : k ≤ MAX_RECONNECT_ATTEMPTS) :
    (afterErrors k).reconnectAttempts = k
    ∧ (afterErrors k).maxReconnectAttempts = MAX_RECONNECT_ATTEMPTS
    ∧ (afterErrors k).reconnectDelay = RECONNECT_DELAY := by
  induction k with
  | zero => exact ⟨rfl, rfl, rfl⟩
  | succ n ih =>
      obtain ⟨ha, hm, hd⟩ := ih (Nat.le_of_succ_le hk)
      have hlt : n < MAX_RECONNECT_ATTEMPTS := by
        have := hk
        unfold MAX_RECONNECT_ATTEMPTS at *
        omega
      simp [afterErrors_succ, handleConnectionError, ha, hm, hd, hlt]

/-- The backoff delay `min(base * growth ^ i, 30000)` is monotone in the
exponent for a nonnegative base and a growth factor at least one. -/
theorem backoff_min_mono (base g : ℚ) (hb : 0 ≤ base) (hg : 1 ≤ g)
    (i j : Nat) (hij : i ≤ j) :
    min (base * g ^ i) 30000 ≤ min (base * g ^ j) 30000 := by
  refine min_le_min ?_ le_rfl
  exact mul_le_mul_of_nonneg_left (pow_le_pow_right₀ hg hij) hb

end SocketService

namespace SocketServiceB

/-- Unfolding step for this iteration's `afterErrors`. -/
theorem afterErrorsB_succ (n : Nat) :
    afterErrors (n + 1) = handleConnectionError (afterErrors n) := rfl

/-- The counterpart of `afterErrors_state` for this iteration. -/
theorem afterErrorsB_state (k : Nat) (hk : k ≤ MAX_RECONNECT_ATTEMPTS) :
    (afterErrors k).reconnectAttempts = k
    ∧ (afterErrors k).maxReconnectAttempts = MAX_RECONNECT_ATTEMPTS
    ∧ (afterErrors k).reconnectDelay = RECONNECT_DELAY := by
  induction k with
  | zero => exact ⟨rfl, rfl, rfl⟩
  | succ n ih =>
      obtain ⟨ha, hm, hd⟩ := ih (Nat.le_of_succ_le hk)
      have hlt : n < MAX_RECONNECT_ATTEMPTS := by
        have := hk
        unfold MAX_RECONNECT_ATTEMPTS at *
        omega
      simp [afterErrorsB_succ, handleConnectionError, ha, hm, hd, hlt]

end SocketServiceB

namespace SocketService

/-- C2: on the `N`-th consecutive failed connection attempt
(`1 ≤ N ≤ MAX_RECONNECT_ATTEMPTS`), `handleConnectionError` schedules the
next attempt after exactly `min(RECONNECT_DELAY * 1.5 ^ (N-1), 30000)`
milliseconds, and this delay is non-decreasing in the attempt number; the
earlier iteration of the service does the same with base 2000 and growth
factor 2 up to its maximum of 8 attempts. -/
theorem reconnect_backoff_formula (N M : Nat) (h1 : 1 ≤ N)
    (h2 : N ≤ MAX_RECONNECT_ATTEMPTS) (h3 : N ≤ M) :
    (afterErrors N).reconnectTimer
      = some (min (RECONNECT_DELAY * ((3 : ℚ) / 2) ^ (N - 1)) 30000)
    ∧ min (RECONNECT_DELAY * ((3 : ℚ) / 2) ^ (N - 1)) 30000
        ≤ min (RECONNECT_DELAY * ((3 : ℚ) / 2) ^ (M - 1)) 30000
    ∧ (N ≤ SocketServiceB.MAX_RECONNECT_ATTEMPTS →
        (SocketServiceB.afterErrors N).reconnectTimer
          = some (min (SocketServiceB.RECONNECT_DELAY * (2 : ℚ) ^ (N - 1)) 30000))
    ∧ min (SocketServiceB.RECONNECT_DELAY * (2 : ℚ) ^ (N - 1)) 30000
        ≤ min (SocketServiceB.RECONNECT_DELAY * (2 : ℚ) ^ (M - 1)) 30000 := by
  refine ⟨?_, ?_, ?_, ?_⟩
  · cases N with
    | zero => omega
    | succ n =>
        obtain ⟨ha, hm, hd⟩ := afterErrors_state n (Nat.le_of_succ_le h2)
        have hlt : n < MAX_RECONNECT_ATTEMPTS := by
          have := h2
          unfold MAX_RECONNECT_ATTEMPTS at *
          omega
        simp [afterErrors_succ, handleConnectionError, ha, hm, hd, hlt]
  · exact backoff_min_mono RECONNECT_DELAY ((3 : ℚ) / 2) (by norm_num [RECONNECT_DELAY])
      (by norm_num) (N - 1) (M - 1) (Nat.sub_le_sub_right h3 1)
  · intro h2b
    cases N with
    | zero => omega
    | succ n =>
        obtain ⟨ha, hm, hd⟩ := SocketServiceB.afterErrorsB_state n (Nat.le_of_succ_le h2b)
        have hlt : n < SocketServiceB.MAX_RECONNECT_ATTEMPTS := by
          have := h2b
          unfold SocketServiceB.MAX_RECONNECT_ATTEMPTS at *
          omega
        simp [SocketServiceB.afterErrorsB_succ, SocketServiceB.handleConnectionError,
          ha, hm, hd, hlt]
  · exact backoff_min_mono SocketServiceB.RECONNECT_DELAY (2 : ℚ)
      (by norm_num [SocketServiceB.RECONNECT_DELAY]) (by norm_num)
      (N - 1) (M - 1) (Nat.sub_le_sub_right h3 1)

/-- C2 witness: the backoff formula at the third consecutive failure,
compared with the seventh. -/
theorem reconnect_backoff_check :
    (afterErrors 3).reconnectTimer
      = some (min (RECONNECT_DELAY * ((3 : ℚ) / 2) ^ (3 - 1)) 30000)
    ∧ min (RECONNECT_DELAY * ((3 : ℚ) / 2) ^ (3 - 1)) 30000
        ≤ min (RECONNECT_DELAY * ((3 : ℚ) / 2) ^ (7 - 1)) 30000
    ∧ (3 ≤ SocketServiceB.MAX_RECONNECT_ATTEMPTS →
        (SocketServiceB.afterErrors 3).reconnectTimer
          = some (min (SocketServiceB.RECONNECT_DELAY * (2 : ℚ) ^ (3 - 1)) 30000))
    ∧ min (SocketServiceB.RECONNECT_DELAY * (2 : ℚ) ^ (3 - 1)) 30000
        ≤ min (SocketServiceB.RECONNECT_DELAY * (2 : ℚ) ^ (7 - 1)) 30000 :=
  reconnect_backoff_formula 3 7 (by decide) (by decide) (by decide)

/-- One queue operation keeps the queue within capacity. -/
theorem applyQueueOp_length (q : List QueuedEvent) (op : QueueOp)
    (h : q.length ≤ QUEUE_CAPACITY) :
    (applyQueueOp q op).length ≤ QUEUE_CAPACITY := by
  cases op with
  | enqueue e =>
      simp only [applyQueueOp, queueEvent]
      by_cases hc : QUEUE_CAPACITY ≤ q.length
      · rw [if_pos hc]
        simp only [List.length_append, List.length_tail, List.length_cons,
          List.length_nil]
        unfold QUEUE_CAPACITY at *
        omega
      · rw [if_neg hc]
        simp only [List.length_append, List.length_cons, List.length_nil]
        unfold QUEUE_CAPACITY at *
        omega
  | drain now =>
      simp only [applyQueueOp, emitQueuedEvents]
      by_cases h0 : q.length = 0
      · simp only [if_pos h0]
        exact h
      · simp [h0]
  | clear => simp [applyQueueOp]

/-- Any operation sequence from the constructor's empty queue keeps the
queue within capacity. -/
theorem runQueue_length_le (ops : List QueueOp) :
    (runQueue ops).length ≤ QUEUE_CAPACITY := by
  suffices h : ∀ q : List QueuedEvent, q.length ≤ QUEUE_CAPACITY →
      (ops.foldl applyQueueOp q).length ≤ QUEUE_CAPACITY by
    exact h [] (by simp)
  induction ops with
  | nil => intro q h; simpa using h
  | cons op rest ih => intro q h; exact ih _ (applyQueueOp_length q op h)

/-- C3: the pending event queue never exceeds its capacity of 100 after
any sequence of enqueue/drain/clear operations; an enqueue on a full queue
evicts the oldest entry and appends the new one; and the drain on the
transition to connected emits exactly the entries not older than
`MAX_QUEUE_AGE`, as an order-preserving subsequence of the queue, leaving
the queue empty. -/
theorem event_queue_policy (ops : List QueueOp) (q q2 : List QueuedEvent)
    (e : QueuedEvent) (now : Nat) (hfull : q.length = QUEUE_CAPACITY) :
    (runQueue ops).length ≤ QUEUE_CAPACITY
    ∧ queueEvent q e = q.tail ++ [e]
    ∧ (emitQueuedEvents q2 now).1
        = q2.filter (fun ev => now - ev.timestamp ≤ MAX_QUEUE_AGE)
    ∧ ((emitQueuedEvents q2 now).1).Sublist q2
    ∧ (emitQueuedEvents q2 now).2 = [] := by
  have hdrain : (emitQueuedEvents q2 now).1
      = q2.filter (fun ev => now - ev.timestamp ≤ MAX_QUEUE_AGE) := by
    by_cases h0 : q2.length = 0
    · have : q2 = [] := List.length_eq_zero.mp h0
      simp [emitQueuedEvents, this]
    · simp [emitQueuedEvents, h0]
  refine ⟨runQueue_length_le ops, ?_, hdrain, ?_, ?_⟩
  · simp [queueEvent, hfull]
  · rw [hdrain]
    exact List.filter_sublist q2
  · by_cases h0 : q2.length = 0
    · have : q2 = [] := List.length_eq_zero.mp h0
      simp [emitQueuedEvents, this]
    · simp [emitQueuedEvents, h0]

/-- A sample queued event. -/
def sampleEventA : QueuedEvent :=
  { event := newMessageEventText, payloadId := 0, hasCallback := false, timestamp := 0 }

/-- Another sample queued event, enqueued much later. -/
def sampleEventB : QueuedEvent :=
  { event := newMessageEventText, payloadId := 1, hasCallback := true, timestamp := 400000 }

/-- C3 witness: the queue policy applied to a full queue of 100 sample
entries, a two-entry queue drained at time 500000 (the first entry is
stale, the second is not), and a concrete operation sequence. -/
theorem event_queue_policy_check :
    (runQueue [QueueOp.enqueue sampleEventA, QueueOp.drain 500000, QueueOp.clear]).length
        ≤ QUEUE_CAPACITY
    ∧ queueEvent (List.replicate QUEUE_CAPACITY sampleEventA) sampleEventB
        = (List.replicate QUEUE_CAPACITY sampleEventA).tail ++ [sampleEventB]
    ∧ (emitQueuedEvents [sampleEventA, sampleEventB] 500000).1
        = [sampleEventA, sampleEventB].filter
            (fun ev => 500000 - ev.timestamp ≤ MAX_QUEUE_AGE)
    ∧ ((emitQueuedEvents [sampleEventA, sampleEventB] 500000).1).Sublist
        [sampleEventA, sampleEventB]
    ∧ (emitQueuedEvents [sampleEventA, sampleEventB] 500000).2 = [] :=
  event_queue_policy [QueueOp.enqueue sampleEventA, QueueOp.drain 500000, QueueOp.clear]
    (List.replicate QUEUE_CAPACITY sampleEventA) [sampleEventA, sampleEventB]
    sampleEventB 500000 (by simp)

/-- C8: while connected with a truthy last-pong timestamp `t`, any
heartbeat check (and any ping-interval check) that runs at a time `now`
with `now - t` beyond `HEARTBEAT_TIMEOUT` force-disconnects the transport;
the resulting client-initiated disconnect reason is reconnectable, so the
disconnect event handler schedules a reconnect (after the standard
`reconnectDelay`) whenever the attempt budget remains — the manager does
not stay connected through a health check on a half-open connection. -/
theorem heartbeat_timeout_forces_disconnect (s : THMState) (now t : Nat)
    (hc : s.connected = true) (hsc : s.socketConnected = true)
    (hp : s.lastSuccessfulPing = some t) (ht : t ≠ 0)
    (hstale : HEARTBEAT_TIMEOUT < now - t)
    (hbudget : s.reconnectAttempts < s.maxReconnectAttempts) :
    heartbeatCheck s now = true
    ∧ pingIntervalCheck s now = true
    ∧ shouldReconnect (some ioClientDisconnectReason) = true
    ∧ (handleDisconnect
        { s with connected := false, socketConnected := false,
                 connectionState := ConnState.disconnected }
        (some ioClientDisconnectReason)).2 = some s.reconnectDelay
    ∧ (onDisconnectEvent s (some ioClientDisconnectReason)).discTimers
        = s.discTimers + 1 := by
  have hsr : shouldReconnect (some ioClientDisconnectReason) = true := by decide
  have him : immediateReconnectReasons.contains ioClientDisconnectReason = false := by
    decide
  refine ⟨?_, ?_, hsr, ?_, ?_⟩
  · simp [heartbeatCheck, hc, hp, ht, hstale]
  · simp [pingIntervalCheck, hsc, hp, ht, hstale]
  · simp [handleDisconnect, hsr, hbudget, him]
    intro hmem
    exact absurd hmem (by decide)
  · simp [onDisconnectEvent, handleDisconnect, hsr, hbudget]

/-- A sample connected state with a last pong at time 1000. -/
def sampleConnectedState : THMState :=
  { initialState with
      connected := true
      socketConnected := true
      connectionState := ConnState.connected
      lastSuccessfulPing := some 1000 }

/-- C8 witness: the heartbeat theorem at the sample connected state,
checked at time 62001 (61001 ms after the last pong, beyond the 60000 ms
heartbeat timeout). -/
theorem heartbeat_timeout_check :
    heartbeatCheck sampleConnectedState 62001 = true
    ∧ pingIntervalCheck sampleConnectedState 62001 = true
    ∧ shouldReconnect (some ioClientDisconnectReason) = true
    ∧ (handleDisconnect
        { sampleConnectedState with
            connected := false, socketConnected := false,
            connectionState := ConnState.disconnected }
        (some ioClientDisconnectReason)).2 = some sampleConnectedState.reconnectDelay
    ∧ (onDisconnectEvent sampleConnectedState (some ioClientDisconnectReason)).discTimers
        = sampleConnectedState.discTimers + 1 :=
  heartbeat_timeout_forces_disconnect sampleConnectedState 62001 1000
    rfl rfl rfl (by decide) (by decide) (by decide)

/-- The allow-list as the claim words it: transport closed, transport
error, heartbeat/ping timeout, server-initiated shutdown or disconnect.
Modelled from the claim text, for comparison with the source's
`reconnectableReasons`. -/
def claimedReconnectableReasons : List String :=
  [transportCloseReason, transportErrorReason, pingTimeoutReason,
   serverShuttingDownReason, ioServerDisconnectReason]

/-- C9 counterexample: the reason `io client disconnect` (a
client-initiated disconnect) is not in the claimed allow-list, yet
`shouldReconnect` accepts it and `handleDisconnect` schedules a reconnect
for it from the constructor state; the same holds for an empty (falsy)
reason, which the claimed allow-list also excludes. -/
theorem disconnect_allowlist_counterexample :
    claimedReconnectableReasons.contains ioClientDisconnectReason = false
    ∧ shouldReconnect (some ioClientDisconnectReason) = true
    ∧ (handleDisconnect initialState (some ioClientDisconnectReason)).2
        = some RECONNECT_DELAY
    ∧ claimedReconnectableReasons.contains emptyReasonText = false
    ∧ shouldReconnect (some emptyReasonText) = true
    ∧ (handleDisconnect initialState (some emptyReasonText)).2
        = some RECONNECT_DELAY := by
  refine ⟨by decide, by decide, ?_, by decide, by decide, ?_⟩
  · simp [handleDisconnect, initialState]
    decide
  · simp [handleDisconnect, initialState]
    decide

/-- C9 (amended): on a disconnect with reason `reason`, the enhanced
service schedules an automatic reconnect exactly when the attempt budget
remains and the reason is absent, empty, or in the source's allow-list —
the claimed list plus `io client disconnect` and falsy reasons. Transport
close and transport error get the short fixed 1000 ms delay; every other
accepted reason gets the standard `reconnectDelay`; with the budget
exhausted nothing is scheduled. The earlier iteration schedules the flat
`reconnectDelay` exactly for its inline four-reason list, which matches
the claimed list except for `io server disconnect`. -/
theorem disconnect_reason_policy (s s2 : THMState) (reason : Option String)
    (r rB : String)
    (hbudget : s.reconnectAttempts < s.maxReconnectAttempts)
    (hexhaust : s2.maxReconnectAttempts ≤ s2.reconnectAttempts)
    (him : r ∈ immediateReconnectReasons)
    (hok : shouldReconnect (some rB) = true)
    (hnim : rB ∉ immediateReconnectReasons) :
    (shouldReconnect reason = true ↔
        (reason = none ∨ ∃ rr, reason = some rr
          ∧ (rr ∈ reconnectableReasons ∨ rr = emptyReasonText)))
    ∧ ((handleDisconnect s reason).2.isSome = true ↔ shouldReconnect reason = true)
    ∧ (handleDisconnect s (some r)).2 = some 1000
    ∧ (handleDisconnect s (some rB)).2 = some s.reconnectDelay
    ∧ (handleDisconnect s2 reason).2 = none
    ∧ (∀ rb2, rb2 ∈ SocketServiceB.shouldReconnectReasons →
        SocketServiceB.handleDisconnect s (some rb2) = some s.reconnectDelay)
    ∧ SocketServiceB.handleDisconnect s (some ioClientDisconnectReason) = none := by
  refine ⟨?_, ?_, ?_, ?_, ?_, ?_, ?_⟩
  · cases reason with
    | none => simp [shouldReconnect]
    | some rr =>
        constructor
        · intro h
          refine Or.inr ⟨rr, rfl, ?_⟩
          simp only [shouldReconnect, Bool.or_eq_true, decide_eq_true_eq] at h
          rcases h with (h | h) | h
          · exact Or.inl (by simpa [List.elem_iff] using h)
          · exact Or.inl (by simp [h, reconnectableReasons])
          · exact Or.inr h
        · rintro (h | ⟨rr2, heq, h⟩)
          · exact absurd h (by simp)
          · obtain rfl := Option.some.inj heq
            simp only [shouldReconnect, Bool.or_eq_true, decide_eq_true_eq]
            rcases h with h | h
            · exact Or.inl (Or.inl (by simpa [List.elem_iff] using h))
            · exact Or.inr h
  · by_cases hsr : shouldReconnect reason = true
    · simp [handleDisconnect, hsr, hbudget]
    · simp [handleDisconnect, Bool.and_eq_true, hsr]
  · have hsr : shouldReconnect (some r) = true := by
      simp only [immediateReconnectReasons, List.mem_cons,
        List.not_mem_nil, or_false] at him
      rcases him with rfl | rfl <;> decide
    have himb : immediateReconnectReasons.contains r = true := by
      simpa [List.elem_iff] using him
    simp [handleDisconnect, hsr, hbudget, himb]
    intro hmem
    exact absurd himb (by simpa [List.elem_iff] using hmem)
  · have hnimb : immediateReconnectReasons.contains rB = false := by
      simpa [List.elem_iff] using hnim
    simp [handleDisconnect, hok, hbudget, hnimb]
    intro hmem
    exact absurd hmem hnim
  · have hnb : ¬ s2.reconnectAttempts < s2.maxReconnectAttempts := by omega
    simp [handleDisconnect, hnb]
  · intro rb2 hrb2
    have hb2 : SocketServiceB.shouldReconnectReasons.contains rb2 = true := by
      simpa [List.elem_iff] using hrb2
    simp [SocketServiceB.handleDisconnect, hb2, hbudget]
    exact hrb2
  · have hb2 : SocketServiceB.shouldReconnectReasons.contains
        ioClientDisconnectReason = false := by decide
    simp [SocketServiceB.handleDisconnect, hb2]
    intro hmem
    exact absurd hmem (by decide)

/-- C9 witness: the amended disconnect policy applied with reason
`ping timeout`, the immediate reason `transport close`, and the
non-immediate reason `io server disconnect`, between a fresh state and an
exhausted one. -/
theorem disconnect_reason_policy_check :
    (shouldReconnect (some pingTimeoutReason) = true ↔
        (some pingTimeoutReason = none ∨ ∃ rr, some pingTimeoutReason = some rr
          ∧ (rr ∈ reconnectableReasons ∨ rr = emptyReasonText)))
    ∧ ((handleDisconnect initialState (some pingTimeoutReason)).2.isSome = true ↔
        shouldReconnect (some pingTimeoutReason) = true)
    ∧ (handleDisconnect initialState (some transportCloseReason)).2 = some 1000
    ∧ (handleDisconnect initialState (some ioServerDisconnectReason)).2
        = some initialState.reconnectDelay
    ∧ (handleDisconnect { initialState with reconnectAttempts := 10 }
        (some pingTimeoutReason)).2 = none
    ∧ (∀ rb2, rb2 ∈ SocketServiceB.shouldReconnectReasons →
        SocketServiceB.handleDisconnect initialState (some rb2)
          = some initialState.reconnectDelay)
    ∧ SocketServiceB.handleDisconnect initialState (some ioClientDisconnectReason)
        = none :=
  disconnect_reason_policy initialState { initialState with reconnectAttempts := 10 }
    (some pingTimeoutReason) transportCloseReason ioServerDisconnectReason
    (by decide) (by decide) (by decide) (by decide) (by decide)

/-- After budget exhaustion with no reconnect timers pending, no sequence
of automatic steps invokes `connect()`, and the exhausted, timer-free
situation persists. -/
theorem runAuto_exhausted (steps : List AutoStep) (s : THMState)
    (h1 : s.maxReconnectAttempts ≤ s.reconnectAttempts)
    (h2 : s.reconnectTimer = none) (h3 : s.discTimers = 0) :
    (runAuto s steps).2 = 0
    ∧ (runAuto s steps).1.maxReconnectAttempts
        ≤ (runAuto s steps).1.reconnectAttempts
    ∧ (runAuto s steps).1.reconnectTimer = none
    ∧ (runAuto s steps).1.discTimers = 0 := by
  induction steps generalizing s with
  | nil => exact ⟨rfl, h1, h2, h3⟩
  | cons st rest ih =>
      have hstep : (autoStep s st).2 = 0
          ∧ (autoStep s st).1.maxReconnectAttempts
              ≤ (autoStep s st).1.reconnectAttempts
          ∧ (autoStep s st).1.reconnectTimer = none
          ∧ (autoStep s st).1.discTimers = 0 := by
        cases st with
        | connectError =>
            have hnb : ¬ s.reconnectAttempts < s.maxReconnectAttempts := by omega
            simp [autoStep, handleConnectionError, hnb, h1, h2, h3]
        | disconnectEvent r =>
            have hnb : ¬ s.reconnectAttempts < s.maxReconnectAttempts := by omega
            simp [autoStep, onDisconnectEvent, handleDisconnect, hnb, h1, h2, h3]
        | reconnectTimerFire => simp [autoStep, h1, h2, h3]
        | discTimerFire => simp [autoStep, h1, h2, h3]
      obtain ⟨hc0, ha, ht, hd⟩ := hstep
      obtain ⟨rc0, rha, rht, rhd⟩ := ih (autoStep s st).1 ha ht hd
      exact ⟨by simp [runAuto, hc0, rc0], by simpa [runAuto] using rha,
        by simpa [runAuto] using rht, by simpa [runAuto] using rhd⟩

/-- C4: from any state in which the attempt counter has reached the
maximum and no reconnect timer is pending (the situation `failed` is
emitted in), no sequence of automatic steps — connection errors,
disconnect events, timer firings — ever invokes `connect()`, and the
counter stays at the maximum with no timer scheduled; a connection error
in that situation emits the terminal `failed` status instead of
scheduling; and the manual `resetReconnection`/`reconnect` calls zero the
attempt counter and cancel the tracked reconnect timer. -/
theorem reconnect_budget_exhaustion (s : THMState) (steps : List AutoStep)
    (h1 : s.maxReconnectAttempts ≤ s.reconnectAttempts)
    (h2 : s.reconnectTimer = none) (h3 : s.discTimers = 0) :
    (runAuto s steps).2 = 0
    ∧ (runAuto s steps).1.maxReconnectAttempts
        ≤ (runAuto s steps).1.reconnectAttempts
    ∧ (runAuto s steps).1.reconnectTimer = none
    ∧ (handleConnectionError s).notifiedFailed = true
    ∧ (handleConnectionError s).reconnectTimer = none
    ∧ (resetReconnection s).reconnectAttempts = 0
    ∧ (resetReconnection s).reconnectTimer = none
    ∧ (reconnectCall s).reconnectAttempts = 0
    ∧ (reconnectCall s).reconnectTimer = none := by
  obtain ⟨hc0, ha, ht, _⟩ := runAuto_exhausted steps s h1 h2 h3
  have hnb : ¬ s.reconnectAttempts < s.maxReconnectAttempts := by omega
  refine ⟨hc0, ha, ht, ?_, ?_, rfl, rfl, rfl, rfl⟩
  · simp [handleConnectionError, hnb]
  · simp [handleConnectionError, hnb, h2]

/-- A state whose reconnect budget is exhausted, as reached after the
terminal `failed` notification. -/
def exhaustedState : THMState :=
  { initialState with
      reconnectAttempts := MAX_RECONNECT_ATTEMPTS
      connectionState := ConnState.error
      notifiedFailed := true }

/-- C4 witness: the budget-exhaustion theorem on the exhausted state under
a concrete burst of automatic steps. -/
theorem reconnect_budget_exhaustion_check :
    (runAuto exhaustedState
      [AutoStep.connectError, AutoStep.disconnectEvent (some transportCloseReason),
       AutoStep.reconnectTimerFire, AutoStep.discTimerFire]).2 = 0
    ∧ (runAuto exhaustedState
        [AutoStep.connectError, AutoStep.disconnectEvent (some transportCloseReason),
         AutoStep.reconnectTimerFire, AutoStep.discTimerFire]).1.maxReconnectAttempts
        ≤ (runAuto exhaustedState
            [AutoStep.connectError, AutoStep.disconnectEvent (some transportCloseReason),
             AutoStep.reconnectTimerFire, AutoStep.discTimerFire]).1.reconnectAttempts
    ∧ (runAuto exhaustedState
        [AutoStep.connectError, AutoStep.disconnectEvent (some transportCloseReason),
         AutoStep.reconnectTimerFire, AutoStep.discTimerFire]).1.reconnectTimer = none
    ∧ (handleConnectionError exhaustedState).notifiedFailed = true
    ∧ (handleConnectionError exhaustedState).reconnectTimer = none
    ∧ (resetReconnection exhaustedState).reconnectAttempts = 0
    ∧ (resetReconnection exhaustedState).reconnectTimer = none
    ∧ (reconnectCall exhaustedState).reconnectAttempts = 0
    ∧ (reconnectCall exhaustedState).reconnectTimer = none :=
  reconnect_budget_exhaustion exhaustedState
    [AutoStep.connectError, AutoStep.disconnectEvent (some transportCloseReason),
     AutoStep.reconnectTimerFire, AutoStep.discTimerFire]
    (by decide) rfl rfl

/-! ### Listener Registry lemmas -/

/-- The pair just registered is among the registry's pairs. -/
theorem mem_registryPairs_add_self (l : Registry) (ev : String) (cb : Nat) :
    (ev, cb) ∈ registryPairs (registryAdd l ev cb) := by
  unfold registryAdd
  split
  next h =>
    obtain ⟨q, hq, hqe⟩ := List.any_eq_true.mp h
    have hq1 : q.1 = ev := of_decide_eq_true hqe
    refine List.mem_flatMap.mpr ⟨(q.1, q.2 ++ [cb]), ?_, ?_⟩
    · have heq : (fun p => if p.1 = ev then (p.1, p.2 ++ [cb]) else p) q
          = (q.1, q.2 ++ [cb]) := by simp [hq1]
      exact heq ▸ List.mem_map_of_mem _ hq
    · simp [hq1]
  next h =>
    refine List.mem_flatMap.mpr ⟨(ev, [cb]), ?_, ?_⟩
    · simp
    · simp

/-- Registering a callback keeps every existing registry pair. -/
theorem mem_registryPairs_add_of_mem (l : Registry) (ev : String) (cb : Nat)
    {p : String × Nat} (hp : p ∈ registryPairs l) :
    p ∈ registryPairs (registryAdd l ev cb) := by
  unfold registryAdd
  split
  next h =>
    obtain ⟨q, hq, hmem⟩ := List.mem_flatMap.mp hp
    by_cases hq1 : q.1 = ev
    · refine List.mem_flatMap.mpr ⟨(q.1, q.2 ++ [cb]), ?_, ?_⟩
      · have heq : (fun p => if p.1 = ev then (p.1, p.2 ++ [cb]) else p) q
            = (q.1, q.2 ++ [cb]) := by simp [hq1]
        exact heq ▸ List.mem_map_of_mem _ hq
      · simp only [List.map_append, List.mem_append]
        exact Or.inl hmem
    · refine List.mem_flatMap.mpr ⟨q, ?_, hmem⟩
      have heq : (fun p => if p.1 = ev then (p.1, p.2 ++ [cb]) else p) q = q := by
        simp [hq1]
      exact heq ▸ List.mem_map_of_mem _ hq
  next h =>
    unfold registryPairs at hp ⊢
    rw [List.flatMap_append]
    exact List.mem_append_left _ hp

/-- Any pair of the registry after an addition is either an old pair or
the added one. -/
theorem registryPairs_add_subset (l : Registry) (ev : String) (cb : Nat)
    {p : String × Nat} (hp : p ∈ registryPairs (registryAdd l ev cb)) :
    p ∈ registryPairs l ∨ p = (ev, cb) := by
  unfold registryAdd at hp
  split at hp
  next h =>
    obtain ⟨q, hq, hmem⟩ := List.mem_flatMap.mp hp
    obtain ⟨q0, hq0, hfq⟩ := List.mem_map.mp hq
    by_cases hq1 : q0.1 = ev
    · have hqe : q = (q0.1, q0.2 ++ [cb]) := by rw [← hfq]; simp [hq1]
      rw [hqe] at hmem
      simp only [List.map_append, List.mem_append] at hmem
      rcases hmem with hm | hm
      · exact Or.inl (List.mem_flatMap.mpr ⟨q0, hq0, hm⟩)
      · right
        simp only [List.map_cons, List.map_nil, List.mem_singleton] at hm
        rw [hm, hq1]
    · have hqe : q = q0 := by rw [← hfq]; simp [hq1]
      rw [hqe] at hmem
      exact Or.inl (List.mem_flatMap.mpr ⟨q0, hq0, hmem⟩)
  next h =>
    unfold registryPairs at hp
    rw [List.flatMap_append] at hp
    rcases List.mem_append.mp hp with hm | hm
    · exact Or.inl hm
    · right
      simpa [registryPairs] using hm

/-- The re-attachment invariant: every registry pair is attached to the
live transport, whenever one exists. -/
def listenersAttached (s : SvcState) : Prop :=
  ∀ p ∈ registryPairs s.eventListeners, ∀ sk, s.socket = some sk → p ∈ sk.attached

/-- Every trace operation preserves the re-attachment invariant: `on`
mutates the registry first and mirrors onto the live transport,
`connect` replays the whole registry onto the fresh transport, and
`disconnect` drops the transport. -/
theorem listenersAttached_applyOp (s : SvcState) (op : SvcOp)
    (h : listenersAttached s) : listenersAttached (s.applyOp op) := by
  cases op with
  | register ev cb =>
      intro p hp sk hsk
      rcases registryPairs_add_subset s.eventListeners ev cb hp with hm | hm
      · cases hsock : s.socket with
        | none => simp [SvcState.applyOp, SvcState.on, hsock] at hsk
        | some sk0 =>
            simp [SvcState.applyOp, SvcState.on, hsock] at hsk
            have hmem := h p hm sk0 hsock
            subst hsk
            simp [hmem]
      · cases hsock : s.socket with
        | none => simp [SvcState.applyOp, SvcState.on, hsock] at hsk
        | some sk0 =>
            simp [SvcState.applyOp, SvcState.on, hsock] at hsk
            subst hsk
            simp [hm]
  | connect =>
      intro p hp sk hsk
      simp only [SvcState.applyOp, SvcState.setupEventHandlers,
        Option.some.injEq] at hsk
      rw [← hsk]
      simpa [SvcState.applyOp, SvcState.setupEventHandlers] using hp
  | disconnect =>
      intro p hp sk hsk
      simp [SvcState.applyOp] at hsk

/-- Every trace operation keeps existing registry pairs. -/
theorem mem_registryPairs_applyOp (s : SvcState) (op : SvcOp) {p : String × Nat}
    (hp : p ∈ registryPairs s.eventListeners) :
    p ∈ registryPairs ((s.applyOp op).eventListeners) := by
  cases op with
  | register ev cb => exact mem_registryPairs_add_of_mem _ _ _ hp
  | connect => simpa [SvcState.applyOp, SvcState.setupEventHandlers] using hp
  | disconnect => simpa [SvcState.applyOp] using hp

/-- The invariant holds after folding any trace over an invariant state. -/
theorem listenersAttached_foldl (ops : List SvcOp) (s : SvcState)
    (h : listenersAttached s) :
    listenersAttached (ops.foldl SvcState.applyOp s) := by
  induction ops generalizing s with
  | nil => simpa using h
  | cons op rest ih => exact ih _ (listenersAttached_applyOp s op h)

/-- Registry pairs persist through any trace. -/
theorem mem_registryPairs_foldl (ops : List SvcOp) (s : SvcState)
    {p : String × Nat} (hp : p ∈ registryPairs s.eventListeners) :
    p ∈ registryPairs ((ops.foldl SvcState.applyOp s).eventListeners) := by
  induction ops generalizing s with
  | nil => simpa using hp
  | cons op rest ih => exact ih _ (mem_registryPairs_applyOp s op hp)

/-- A registration appearing anywhere in a trace ends up in the final
registry. -/
theorem mem_registryPairs_of_register (ops : List SvcOp) (s : SvcState)
    (ev : String) (cb : Nat) (hreg : SvcOp.register ev cb ∈ ops) :
    (ev, cb) ∈ registryPairs ((ops.foldl SvcState.applyOp s).eventListeners) := by
  induction ops generalizing s with
  | nil => simp at hreg
  | cons op rest ih =>
      rcases List.mem_cons.mp hreg with heq | hmem
      · rw [← heq]
        exact mem_registryPairs_foldl rest _ (mem_registryPairs_add_self _ ev cb)
      · exact ih _ hmem

/-- C1: for any trace of registrations, connects (each of which creates a
fresh transport and replays the registry in `setupEventHandlers`) and
disconnects, a listener registered anywhere in the trace is in the final
Listener Registry, and whenever a transport exists at the end of the
trace, a delivery of the matching event on it invokes that listener — no
registered listener is dropped by reconnects. -/
theorem listener_registry_survives_reconnects (ops : List SvcOp) (ev : String)
    (cb : Nat) (sk : Transport) (hreg : SvcOp.register ev cb ∈ ops)
    (hsk : (runSvc ops).socket = some sk) :
    (ev, cb) ∈ registryPairs (runSvc ops).eventListeners
    ∧ cb ∈ sk.deliver ev := by
  have hinv : listenersAttached (runSvc ops) := by
    apply listenersAttached_foldl
    intro p hp sk0 hsk0
    simp [registryPairs] at hp
  have hmem := mem_registryPairs_of_register ops
    { eventListeners := [], socket := none } ev cb hreg
  refine ⟨hmem, ?_⟩
  have hatt : (ev, cb) ∈ sk.attached := hinv _ hmem sk hsk
  unfold Transport.deliver
  exact List.mem_map.mpr ⟨(ev, cb), List.mem_filter.mpr ⟨hatt, by simp⟩, rfl⟩

/-- C1 witness: a listener registered before any connection exists is
delivered to by the transport created by a later connect. -/
theorem listener_registry_check :
    (newMessageEventText, 7) ∈ registryPairs
      (runSvc [SvcOp.register newMessageEventText 7, SvcOp.connect]).eventListeners
    ∧ 7 ∈ (Transport.mk [(newMessageEventText, 7)]).deliver newMessageEventText :=
  listener_registry_survives_reconnects
    [SvcOp.register newMessageEventText 7, SvcOp.connect]
    newMessageEventText 7 (Transport.mk [(newMessageEventText, 7)])
    (by decide) (by decide)

end SocketService

end Frontend
